import Mathlib

/-!
Verification of the Scuba Diving Agent (`app.py`) forecast/summarizer pipeline.

The Python program is sequential glue around two HTTP JSON endpoints, a
web-search provider and a generative-text provider.  We embed the pure data
transformations shallowly:

* JSON objects become structures with `Option` fields (`none` = absent key;
  `dict.get(k, d)` becomes `Option.getD`).
* Python exceptions become explicit outcome constructors: a `try/except`
  block maps the raised-exception paths of its body to the handler's result.
* `pd.DataFrame` over a dict of column lists raises `ValueError` when the
  column lists have different lengths; we model that constructor by a length
  guard.  `pd.to_datetime` is modelled as keeping the ISO timestamp strings
  (its own parse failure is simply one more raised-exception path that the
  sole `except` clause of `get_meteo_data` maps to `none`).
-/

namespace Scuba

/-! ## Weather-code translation (app.py lines 34-41 and 101) -/

/-- `WEATHER_CODE_MAP`: the WMO weather-code dictionary of app.py lines 34-41,
as an association list from integer code to Japanese label. -/
def WEATHER_CODE_MAP : List (Int × String) :=
  [(0, "快晴"), (1, "晴れ"), (2, "一部曇り"), (3, "曇り"),
   (45, "霧"), (48, "着氷性の霧"),
   (51, "霧雨(軽)"), (53, "霧雨(中)"), (55, "霧雨(強)"),
   (61, "雨(軽)"), (63, "雨(中)"), (65, "雨(強)"),
   (80, "にわか雨(軽)"), (81, "にわか雨(中)"), (82, "にわか雨(強)")]

/-- The per-row translation `WEATHER_CODE_MAP.get(x, f"不明({x})")` applied by
`df["天気コード"].map(...)` at app.py line 101. -/
def weatherLabel (x : Int) : String :=
  match WEATHER_CODE_MAP.lookup x with
  | some s => s
  | none => "不明(" ++ toString x ++ ")"

/-! ## Forecast client (`get_meteo_data`, app.py lines 45-106) -/

/-- The `hourly` JSON object of the marine endpoint response; `none` models an
absent key, so `hourly.get('f', [])` is `(·.f.getD [])`. -/
structure MarineHourly where
  time : Option (List String) := none
  wave_height : Option (List Rat) := none
  wave_direction : Option (List Rat) := none
  wave_period : Option (List Rat) := none
  swell_wave_height : Option (List Rat) := none
deriving Repr, DecidableEq

/-- The `hourly` JSON object of the forecast (atmospheric) endpoint response. -/
structure WeatherHourly where
  temperature_2m : Option (List Rat) := none
  precipitation : Option (List Rat) := none
  weather_code : Option (List Int) := none
  wind_speed_10m : Option (List Rat) := none
  wind_direction_10m : Option (List Rat) := none
deriving Repr, DecidableEq

/-- Marine endpoint response body: `marine_res.get('hourly', {})` is
`(·.hourly.getD {})`. -/
structure MarineRes where
  hourly : Option MarineHourly := none
deriving Repr, DecidableEq

/-- Forecast endpoint response body. -/
structure WeatherRes where
  hourly : Option WeatherHourly := none
deriving Repr, DecidableEq

/-- One row of the merged DataFrame built at app.py lines 87-98, together with
the `天気` label column appended at line 101. -/
structure ForecastRow where
  time : String
  temperature : Rat
  precipitation : Rat
  wind_speed : Rat
  wind_direction : Rat
  weather_code : Int
  wave_height : Rat
  wave_direction : Rat
  wave_period : Rat
  swell_height : Rat
  weather_label : String
deriving Repr, DecidableEq

/-- The ten column lists extracted from the two responses at app.py
lines 81-97 (each by `hourly.get(field, [])`). -/
structure Columns where
  times : List String
  temps : List Rat
  precs : List Rat
  winds : List Rat
  wdirs : List Rat
  codes : List Int
  waveh : List Rat
  waved : List Rat
  wavep : List Rat
  swellh : List Rat
deriving Repr, DecidableEq

/-- Column extraction of app.py lines 81-97. -/
def extractColumns (mr : MarineRes) (wr : WeatherRes) : Columns :=
  let hm := mr.hourly.getD {}
  let hw := wr.hourly.getD {}
  { times := hm.time.getD []
    temps := hw.temperature_2m.getD []
    precs := hw.precipitation.getD []
    winds := hw.wind_speed_10m.getD []
    wdirs := hw.wind_direction_10m.getD []
    codes := hw.weather_code.getD []
    waveh := hm.wave_height.getD []
    waved := hm.wave_direction.getD []
    wavep := hm.wave_period.getD []
    swellh := hm.swell_wave_height.getD [] }

/-- The `pd.DataFrame` constructor precondition: a dict of column lists is
accepted exactly when all lists share the time axis length (otherwise pandas
raises `ValueError: All arrays must be of the same length`). -/
def lensOk (c : Columns) : Bool :=
  c.temps.length == c.times.length && c.precs.length == c.times.length &&
  c.winds.length == c.times.length && c.wdirs.length == c.times.length &&
  c.codes.length == c.times.length && c.waveh.length == c.times.length &&
  c.waved.length == c.times.length && c.wavep.length == c.times.length &&
  c.swellh.length == c.times.length

/-- Row construction of the accepted DataFrame: row `i` takes index `i` of
every column (the `getD` defaults are unreachable under `lensOk`).  The
`weather_label` field is the `天気` column appended at line 101. -/
def buildRows (c : Columns) : List ForecastRow :=
  (List.range c.times.length).map fun i =>
    { time := c.times.getD i ""
      temperature := c.temps.getD i 0
      precipitation := c.precs.getD i 0
      wind_speed := c.winds.getD i 0
      wind_direction := c.wdirs.getD i 0
      weather_code := c.codes.getD i 0
      wave_height := c.waveh.getD i 0
      wave_direction := c.waved.getD i 0
      wave_period := c.wavep.getD i 0
      swell_height := c.swellh.getD i 0
      weather_label := weatherLabel (c.codes.getD i 0) }

/-- `get_meteo_data` (app.py lines 45-106).  The two `Except` inputs are the
outcomes of the two `requests.get(...).json()` calls; any raised exception in
the `try` body (transport failure, non-JSON body, DataFrame length mismatch,
timestamp parse failure) reaches the single `except` clause, which shows an
error and returns `None` — modelled as `none`. -/
def get_meteo_data (marine : Except Unit MarineRes) (weather : Except Unit WeatherRes) :
    Option (List ForecastRow) :=
  match marine, weather with
  | .ok mr, .ok wr =>
    let c := extractColumns mr wr
    if lensOk c then some (buildRows c) else none
  | _, _ => none

/-- The marine response's hourly time axis (`hourly_marine.get('time', [])`). -/
def marineTimes (mr : MarineRes) : List String :=
  (mr.hourly.getD {}).time.getD []

/-- Time axis of a transport-level input (error responses carry no axis). -/
def inputTimes : Except Unit MarineRes → List String
  | .ok mr => marineTimes mr
  | .error _ => []

/-! ## Presentation-layer midday selection (app.py lines 180-190) -/

/-- `.dt.hour` of a parsed ISO-8601 timestamp `YYYY-MM-DDTHH:MM` (the format
Open-Meteo returns): the two digit characters at positions 11-12 are the hour
field. -/
def dtHour (t : String) : Nat :=
  match (t.data.drop 11).take 2 with
  | [d1, d0] =>
    if d1.isDigit && d0.isDigit then (d1.toNat - 48) * 10 + (d0.toNat - 48) else 0
  | _ => 0

/-- The row predicate `df['time'].dt.hour == target_hour` with
`target_hour = 12` (app.py lines 182-184). -/
def isNoon (r : ForecastRow) : Bool := dtHour r.time == 12

/-- The representative-row selection of app.py line 184:
`df[df['time'].dt.hour == 12].iloc[0]` when the hour-12 filter is non-empty,
otherwise `df.iloc[len(df)//2]`.  `none` models the `IndexError` that
`.iloc` raises on an out-of-range position. -/
def midday_data (df : List ForecastRow) : Option ForecastRow :=
  match df.filter isNoon with
  | r :: _ => some r
  | [] => df.get? (df.length / 2)

/-! ## Marine-life summarizer (`search_marine_life`, app.py lines 108-135) -/

/-- One result object of the web-search provider response; only its `content`
text field is consumed. -/
structure SearchResult where
  content : String
deriving Repr, DecidableEq

/-- Web-search provider response: an object with a `results` array. -/
structure SearchResponse where
  results : List SearchResult
deriving Repr, DecidableEq

/-- The context string of app.py line 117:
`"\n".join([res['content'] for res in search_result['results']])`. -/
def joinContext (rs : List SearchResult) : String :=
  String.intercalate "\n" (rs.map SearchResult.content)

/-- The generation prompt of app.py lines 120-128 (the f-string template with
the location, month and context interpolated; surrounding template whitespace
kept only where it separates the pieces). -/
def mkPrompt (location : String) (month : Nat) (context : String) : String :=
  "以下の検索結果に基づいて、" ++ location ++ "の" ++ toString month ++
  "月にダイビングで見られる可能性が高い海洋生物をリストアップしてください。\n" ++
  "出力は以下のフォーマットのみを含むマークダウンの箇条書きにしてください。余計な前置きは不要です。\n\n" ++
  "- **生物名**: 特徴や見どころ（一言で）\n\n検索結果:\n" ++ context

/-- The fallback string returned by the `except` clause at app.py line 135. -/
def FALLBACK : String := "情報の取得に失敗しました。"

/-- `search_marine_life` (app.py lines 108-135).  `search` is the outcome of
`tavily.search(...)`; `generate` is the outcome of
`model.generate_content(prompt).text` as a function of the prompt.  Any raised
exception in either provider call reaches the single `except` clause, which
shows an error and returns the fallback string. -/
def search_marine_life (location : String) (month : Nat)
    (search : Except Unit SearchResponse) (generate : String → Except Unit String) :
    String :=
  match search with
  | .error _ => FALLBACK
  | .ok sr =>
    match generate (mkPrompt location month (joinContext sr.results)) with
    | .error _ => FALLBACK
    | .ok text => text

/-! ## Spot registry load (app.py lines 27-31) -/

/-- The state of the `diving_spots.csv` source as `pd.read_csv` sees it:
missing file (`FileNotFoundError`), unparseable text (`ParserError`), or a
parsed table of a header row and data rows (cells positionally aligned to the
header). -/
inductive CsvSource
  | missing
  | malformed
  | parsed (header : List String) (rows : List (List String))
deriving Repr, DecidableEq

/-- Outcome of the module-level spot load: `fatal` is the `except` clause at
app.py lines 29-31 (`st.error` then `st.stop()`); `loaded` carries the
`to_dict("index")` mapping from each row's name to its remaining columns. -/
inductive LoadOutcome
  | fatal
  | loaded (spots : List (String × List (String × String)))
deriving Repr, DecidableEq

/-- Position of column `col` in the header row (how `set_index` locates the
index column). -/
def colIndex : List String → String → Option Nat
  | [], _ => none
  | h :: t, col => if h == col then some 0 else (colIndex t col).map (· + 1)

/-- `DIVING_SPOTS` load (app.py line 28):
`pd.read_csv("diving_spots.csv").set_index("name").to_dict("index")` inside
`try/except Exception`.  `set_index("name")` raises `KeyError` when the
header lacks a `name` column; `to_dict("index")` raises `ValueError` when the
resulting index has duplicate values; every raised exception becomes
`fatal`. -/
def loadDivingSpots (src : CsvSource) : LoadOutcome :=
  match src with
  | .missing => .fatal
  | .malformed => .fatal
  | .parsed header rows =>
    match colIndex header "name" with
    | none => .fatal
    | some i =>
      let names := rows.map (fun r => r.getD i "")
      if names.Nodup then
        .loaded (rows.map (fun r => (r.getD i "", (header.zip r).eraseIdx i)))
      else .fatal

/-! ## Secret loading at startup (app.py lines 12-17) -/

/-- The process-local secret store: `missingFile` is an absent `secrets.toml`
(`st.secrets[...]` raises `FileNotFoundError`); `present` carries the parsed
section → key → value table. -/
inductive SecretStore
  | missingFile
  | present (sections : List (String × List (String × String)))
deriving Repr, DecidableEq

/-- `st.secrets[sec][key]` on a present store: `none` models the `KeyError`
raised when the section or the key is absent. -/
def lookupSecret (sections : List (String × List (String × String)))
    (sec key : String) : Option String :=
  (sections.lookup sec).bind (fun kvs => kvs.lookup key)

/-- Outcome of the startup secret block: `haltDiagnostic` is the handled path
(`st.error` with a clear message, then `st.stop()`); `crashUnhandled` is an
exception that the `except FileNotFoundError` clause does not catch, which
terminates the script with a traceback; `proceeded` carries both keys. -/
inductive StartupOutcome
  | haltDiagnostic
  | crashUnhandled
  | proceeded (googleKey tavilyKey : String)
deriving Repr, DecidableEq

/-- The startup secret block (app.py lines 12-17).  A missing secrets file
raises `FileNotFoundError`, which the handler converts to the diagnostic
halt; a present store lacking the `general` section or either key raises
`KeyError`, which the handler does not catch. -/
def loadSecrets (store : SecretStore) : StartupOutcome :=
  match store with
  | .missingFile => .haltDiagnostic
  | .present sections =>
    match lookupSecret sections "general" "GOOGLE_API_KEY",
          lookupSecret sections "general" "TAVILY_API_KEY" with
    | some g, some t => .proceeded g t
    | _, _ => .crashUnhandled

/-- A startup state in which at least one of the two credentials is absent. -/
def credentialAbsent (store : SecretStore) : Prop :=
  match store with
  | .missingFile => True
  | .present sections =>
    lookupSecret sections "general" "GOOGLE_API_KEY" = none ∨
    lookupSecret sections "general" "TAVILY_API_KEY" = none

/-! ## Concrete response fixtures used in the theorems below -/

/-- Marine response with one hourly sample in every array. -/
def marineOneHour : MarineRes :=
  { hourly := some
      { time := some ["2024-07-15T00:00"]
        wave_height := some [1]
        wave_direction := some [90]
        wave_period := some [8]
        swell_wave_height := some [1] } }

/-- Weather response whose `temperature_2m` array is absent while every other
array has one sample. -/
def weatherMissingTemp : WeatherRes :=
  { hourly := some
      { precipitation := some [0]
        weather_code := some [61]
        wind_speed_10m := some [5]
        wind_direction_10m := some [180] } }

/-- Weather response whose `wind_speed_10m` array is absent while every other
array has one sample. -/
def weatherMissingWind : WeatherRes :=
  { hourly := some
      { temperature_2m := some [20]
        precipitation := some [0]
        weather_code := some [61]
        wind_direction_10m := some [180] } }

/-- Marine response with an empty `time` array and no metric arrays. -/
def marineEmptyTime : MarineRes := { hourly := some { time := some [] } }

/-- Weather response with a single `temperature_2m` sample and no other
arrays. -/
def weatherOneTemp : WeatherRes := { hourly := some { temperature_2m := some [20] } }

/-- Marine response in which the time axis and every metric array are empty. -/
def marineEmptyAll : MarineRes :=
  { hourly := some
      { time := some []
        wave_height := some []
        wave_direction := some []
        wave_period := some []
        swell_wave_height := some [] } }

/-- Weather response in which every metric array is empty. -/
def weatherEmptyAll : WeatherRes :=
  { hourly := some
      { temperature_2m := some []
        precipitation := some []
        weather_code := some []
        wind_speed_10m := some []
        wind_direction_10m := some [] } }

/-- A forecast row whose timestamp has hour 13 (no exact-noon hour). -/
def sampleRow13 : ForecastRow :=
  { time := "2024-07-15T13:00"
    temperature := 28
    precipitation := 0
    wind_speed := 12
    wind_direction := 180
    weather_code := 1
    wave_height := 1
    wave_direction := 90
    wave_period := 8
    swell_height := 1
    weather_label := "晴れ" }

end Scuba

namespace Scuba

/-! ## Helper lemmas -/

theorem map_range_getD {α : Type} (l : List α) (d : α) :
    (List.range l.length).map (fun i => l.getD i d) = l := by
  induction l with
  | nil => rfl
  | cons a t ih =>
    rw [List.length_cons, List.range_succ_eq_map, List.map_cons, List.map_map]
    simp only [Function.comp_def, List.getD_cons_zero, List.getD_cons_succ]
    rw [ih]

theorem buildRows_length (c : Columns) : (buildRows c).length = c.times.length := by
  simp [buildRows]

theorem buildRows_map_time (c : Columns) :
    (buildRows c).map ForecastRow.time = c.times := by
  rw [buildRows, List.map_map]
  exact map_range_getD c.times ""

theorem lookup_snd_mem {l : List (Int × String)} {x : Int} {s : String}
    (h : l.lookup x = some s) : s ∈ l.map Prod.snd := by
  induction l with
  | nil => simp [List.lookup] at h
  | cons p t ih =>
    obtain ⟨k, b⟩ := p
    simp only [List.lookup] at h
    split at h
    · simp only [Option.some.injEq] at h
      subst h
      exact List.mem_cons_self _ _
    · exact List.mem_cons_of_mem _ (ih h)

theorem weather_vals_ne_empty : ∀ s ∈ WEATHER_CODE_MAP.map Prod.snd, s ≠ "" := by decide

theorem append_ne_left {a : String} (b : String) (ha : a ≠ "") : a ++ b ≠ "" := by
  intro hc
  apply ha
  apply String.ext
  have hd := congrArg String.data hc
  rw [String.data_append] at hd
  exact (List.append_eq_nil.mp hd).1

theorem colIndex_eq_none {header : List String} {col : String} (h : col ∉ header) :
    colIndex header col = none := by
  induction header with
  | nil => rfl
  | cons a t ih =>
    simp only [List.mem_cons, not_or] at h
    simp only [colIndex, beq_iff_eq]
    rw [if_neg (fun hc => h.1 hc.symm), ih h.2]
    rfl

end Scuba

namespace Scuba

/-! ## Claim theorems -/

/-- C1: for every pair of upstream outcomes, `get_meteo_data` either fails
with the explicit error value `none`, or returns a table whose row count
equals the length of the marine response's hourly time axis and whose time
column is exactly the marine response's timestamp list. -/
theorem c1_fetch_rowcount (m : Except Unit MarineRes) (w : Except Unit WeatherRes) :
    get_meteo_data m w = none ∨
    ∃ df, get_meteo_data m w = some df ∧ df.length = (inputTimes m).length ∧
      df.map ForecastRow.time = inputTimes m := by
  cases m with
  | error e => exact Or.inl rfl
  | ok mr =>
    cases w with
    | error e => exact Or.inl rfl
    | ok wr =>
      by_cases h : lensOk (extractColumns mr wr) = true
      · refine Or.inr ⟨buildRows (extractColumns mr wr), ?_, ?_, ?_⟩
        · simp [get_meteo_data, h]
        · rw [buildRows_length]
          rfl
        · rw [buildRows_map_time]
          rfl
      · exact Or.inl (by simp [get_meteo_data, h])

/-- C2 counterexample: with a one-sample marine time axis and a weather
response whose `temperature_2m` array is absent, the merge does not produce a
table with unavailable markers — the DataFrame constructor raises on the
length mismatch and `get_meteo_data` returns the error value `none`. -/
theorem c2_counterexample :
    get_meteo_data (.ok marineOneHour) (.ok weatherMissingTemp) = none := by decide

/-- C2 amended: whenever any metric array is absent or its length differs
from the marine time axis length (`lensOk` fails), `get_meteo_data` returns
the explicit error value `none`; no out-of-range access escapes (the function
is total and returns through the error channel, not a table with markers). -/
theorem c2_amended (mr : MarineRes) (wr : WeatherRes)
    (h : lensOk (extractColumns mr wr) = false) :
    get_meteo_data (.ok mr) (.ok wr) = none := by
  simp [get_meteo_data, h]

theorem c2_amended_witness :
    get_meteo_data (.ok marineOneHour) (.ok weatherMissingWind) = none :=
  c2_amended marineOneHour weatherMissingWind (by decide)

/-- C3 counterexample: when the marine endpoint returns an empty `time` array
while the weather response carries a one-sample `temperature_2m` array,
`get_meteo_data` does not return a 0-row table — it returns the error value
`none` (pandas rejects the mismatched column lengths). -/
theorem c3_counterexample :
    get_meteo_data (.ok marineEmptyTime) (.ok weatherOneTemp) = none := by decide

/-- C3 amended: when the marine time axis and all metric arrays of both
responses are empty, `get_meteo_data` returns the 0-row table without error;
but the caller's midday selection on a 0-row table performs the out-of-range
positional access `df.iloc[0]` (modelled `none`, an `IndexError` in pandas),
so the display path crashes rather than rendering a no-data state. -/
theorem c3_amended :
    get_meteo_data (.ok marineEmptyAll) (.ok weatherEmptyAll) = some [] ∧
    midday_data [] = none := by
  exact ⟨by decide, rfl⟩

/-- C4: weather-code translation is total: every integer code produces a
non-empty label; every unmapped code's label contains the code's decimal
rendering as a substring; code 61 maps to the light-rain label `雨(軽)`; and
the label of code 999 contains `999`. -/
theorem c4_weather_label_total (x : Int) :
    weatherLabel x ≠ "" ∧
    (WEATHER_CODE_MAP.lookup x = none → (toString x).data <:+: (weatherLabel x).data) ∧
    weatherLabel 61 = "雨(軽)" ∧ ("999" : String).data <:+: (weatherLabel 999).data := by
  refine ⟨?_, ?_, by decide, by decide⟩
  · match h : WEATHER_CODE_MAP.lookup x with
    | some s =>
      have hs : s ≠ "" := weather_vals_ne_empty s (lookup_snd_mem h)
      simpa [weatherLabel, h] using hs
    | none =>
      unfold weatherLabel
      rw [h]
      exact append_ne_left ")" (append_ne_left (toString x) (by decide))
  · intro h
    unfold weatherLabel
    rw [h]
    exact ⟨("不明(" : String).data, (")" : String).data, by simp⟩

theorem c4_witness : (toString (999 : Int)).data <:+: (weatherLabel 999).data :=
  (c4_weather_label_total 999).2.1 (by decide)

/-- C5: whenever the search provider fails, or the generation provider fails
on the prompt actually sent, `search_marine_life` returns the user-visible
fallback string instead of propagating the failure, and that fallback string
is non-empty. -/
theorem c5_summarize_fallback (loc : String) (month : Nat)
    (search : Except Unit SearchResponse) (generate : String → Except Unit String)
    (h : search = .error () ∨
      ∃ sr, search = .ok sr ∧
        generate (mkPrompt loc month (joinContext sr.results)) = .error ()) :
    search_marine_life loc month search generate = FALLBACK ∧ FALLBACK ≠ "" := by
  refine ⟨?_, by decide⟩
  rcases h with h | ⟨sr, hs, hg⟩
  · subst h
    rfl
  · subst hs
    simp [search_marine_life, hg]

theorem c5_witness :
    search_marine_life "伊豆" 7 (.error ()) (fun _ => .ok "") = FALLBACK ∧ FALLBACK ≠ "" :=
  c5_summarize_fallback "伊豆" 7 (.error ()) (fun _ => .ok "") (Or.inl rfl)

/-- C6: on a non-empty forecast table, the midday selection returns the first
row whose timestamp hour is 12 when the noon filter is non-empty, and
otherwise the middle row at position `len(df) // 2`, which is always in
range. -/
theorem c6_midday_policy (df : List ForecastRow) (h : df ≠ []) :
    (∀ r rest, df.filter isNoon = r :: rest → midday_data df = some r) ∧
    (df.filter isNoon = [] →
      midday_data df = df.get? (df.length / 2) ∧ (midday_data df).isSome) := by
  constructor
  · intro r rest hf
    unfold midday_data
    rw [hf]
  · intro hf
    have h0 : 0 < df.length := List.length_pos.mpr h
    have hlt : df.length / 2 < df.length := Nat.div_lt_self h0 (by norm_num)
    have hm : midday_data df = df.get? (df.length / 2) := by
      unfold midday_data
      rw [hf]
    refine ⟨hm, ?_⟩
    rw [hm, List.get?_eq_get hlt]
    rfl

theorem c6_witness :
    midday_data [sampleRow13] = [sampleRow13].get? 0 ∧
    (midday_data [sampleRow13]).isSome :=
  (c6_midday_policy [sampleRow13] (by simp)).2 (by decide)

/-- C7 counterexample: a parsed spot table whose header has a `name` column
but neither `lat` nor `lon` loads successfully — the load is not fatal, so
the required-columns part of the claim fails (missing coordinates only fail
later, at query-time lookup). -/
theorem c7_counterexample :
    loadDivingSpots (.parsed ["name"] [["A"]]) = .loaded [("A", [])] ∧
    loadDivingSpots (.parsed ["name"] [["A"]]) ≠ .fatal := by decide

/-- C7 amended: the spot registry load is fatal whenever the backing source
is missing, malformed, or its header lacks the `name` column; a header
lacking only `lat`/`lon` is not rejected at load time. -/
theorem c7_amended (src : CsvSource)
    (h : src = .missing ∨ src = .malformed ∨
      ∃ header rows, src = .parsed header rows ∧ "name" ∉ header) :
    loadDivingSpots src = .fatal := by
  rcases h with h | h | ⟨header, rows, h, hn⟩
  · subst h
    rfl
  · subst h
    rfl
  · subst h
    simp only [loadDivingSpots]
    rw [colIndex_eq_none hn]

theorem c7_amended_witness : loadDivingSpots .missing = .fatal :=
  c7_amended .missing (Or.inl rfl)

/-- C8 counterexample: a present secret store whose `general` section lacks
both keys does not stop through the handled clear-diagnostic path — the
`KeyError` is not caught by the `except FileNotFoundError` clause and the
script dies with an unhandled exception. -/
theorem c8_counterexample :
    loadSecrets (.present [("general", [])]) = .crashUnhandled ∧
    loadSecrets (.present [("general", [])]) ≠ .haltDiagnostic := by decide

/-- C8 amended: in every startup state missing a credential the process never
proceeds to the interactive surface; the clear-diagnostic halt happens
exactly when the secrets file itself is missing, while a present store
lacking a key terminates via an unhandled `KeyError` instead. -/
theorem c8_amended (store : SecretStore) (h : credentialAbsent store) :
    (∀ g t, loadSecrets store ≠ .proceeded g t) ∧
    (store = .missingFile → loadSecrets store = .haltDiagnostic) := by
  cases store with
  | missingFile => exact ⟨fun g t hc => StartupOutcome.noConfusion hc, fun _ => rfl⟩
  | present sections =>
    refine ⟨?_, fun hc => SecretStore.noConfusion hc⟩
    intro g t
    simp only [credentialAbsent] at h
    simp only [loadSecrets]
    rcases h with h | h
    · rw [h]
      simp
    · cases hx : lookupSecret sections "general" "GOOGLE_API_KEY" <;>
        rw [h] <;> simp

theorem c8_amended_witness : loadSecrets .missingFile = .haltDiagnostic :=
  (c8_amended .missingFile trivial).2 rfl

/-- C9: the generation context is the newline-separated concatenation of the
search results' content fields in order (shown at sizes 0, 1 and 2); with
zero search results the context is empty and generation still proceeds,
returning the model's text through the non-error path. -/
theorem c9_zero_results (loc : String) (month : Nat)
    (generate : String → Except Unit String) (t : String) (r1 r2 : SearchResult)
    (h : generate (mkPrompt loc month "") = .ok t) :
    joinContext [] = "" ∧ joinContext [r1] = r1.content ∧
    joinContext [r1, r2] = r1.content ++ "\n" ++ r2.content ∧
    search_marine_life loc month (.ok ⟨[]⟩) generate = t := by
  refine ⟨rfl, rfl, rfl, ?_⟩
  have h2 : generate (mkPrompt loc month (joinContext [])) = Except.ok t := h
  show (match generate (mkPrompt loc month (joinContext [])) with
    | Except.error _ => FALLBACK
    | Except.ok text => text) = t
  rw [h2]

theorem c9_witness :
    search_marine_life "バリ" 3 (.ok ⟨[]⟩) (fun _ => .ok "- **マンタ**: 大物") = "- **マンタ**: 大物" :=
  (c9_zero_results "バリ" 3 (fun _ => .ok "- **マンタ**: 大物") "- **マンタ**: 大物"
    ⟨"a"⟩ ⟨"b"⟩ rfl).2.2.2

/-- C10: when the parsed spot table has a `name` column and the name cells
contain a duplicate, the load is deterministically fatal — the
`to_dict("index")` conversion rejects the duplicate index rather than
applying last-write-wins. -/
theorem c10_duplicate_reject (header : List String) (rows : List (List String)) (i : Nat)
    (hi : colIndex header "name" = some i)
    (hdup : ¬ (rows.map (fun r => r.getD i "")).Nodup) :
    loadDivingSpots (.parsed header rows) = .fatal := by
  simp only [loadDivingSpots]
  rw [hi]
  exact if_neg hdup

theorem c10_witness :
    loadDivingSpots (.parsed ["name", "lat", "lon"] [["A", "1", "2"], ["A", "3", "4"]]) =
      .fatal :=
  c10_duplicate_reject ["name", "lat", "lon"] [["A", "1", "2"], ["A", "3", "4"]] 0
    (by decide) (by decide)

end Scuba
